import Mathlib

/-!
Verification development for the ecs-task-kite ambassador proxy.

We give a shallow embedding of the reconciliation/proxy engine:
  * the ECS data model (tasks, containers, network bindings) and the
    port/backend extraction helpers of `lib/taskhelpers`
    (`ContainerPorts`, `FilterIPPort`, `ResolvePort`, `PublicIP`,
    `PrivateIP`, `Container`),
  * the per-connection handler spawned by `Proxy.serveLoop` and
    `Proxy.Close` of `lib/proxy/proxy.go`, modelled as pure functions
    from proxy state and the handler's external inputs (the random
    index and the dial outcome) to a new state plus an event trace,
  * one reconciliation round of `proxyTasks` of `ecs-task-kite.go`,
  * the startup flag validation of `_main`.

Machine integers are modelled as `Nat`/`Int` with explicit reduction
modulo 2^16 where Go converts to `uint16`.
-/

namespace TaskKite

/-- Reduction of a Go `int64` to `uint16`: two's-complement truncation,
i.e. the value modulo 2^16. -/
def u16 (i : Int) : Nat := (i % 65536).toNat

/-- Go `ecs.NetworkBinding`: both ports are nullable `*int64` in the Go SDK. -/
structure NetworkBinding where
  containerPort : Option Int
  hostPort : Option Int
deriving DecidableEq

/-- Go `ecs.Container` as used by this program: nullable name and status,
plus its network bindings.  (The source dereferences `LastStatus`
unconditionally, so a `none` status is outside the behaviour it
exercises; we keep the field nullable and compare against
`some "RUNNING"`.) -/
structure Container where
  name : Option String
  lastStatus : Option String
  networkBindings : List NetworkBinding
deriving DecidableEq

/-- The slice of `ec2.Instance` the program reads: the two IP fields. -/
structure EC2Instance where
  publicIPAddress : Option String
  privateIPAddress : Option String
deriving DecidableEq

/-- Go `ecsclient.Task`: the ECS task plus its (possibly absent) EC2
instance. -/
structure Task where
  containers : List Container
  ec2Instance : Option EC2Instance
deriving DecidableEq

/-- Method `Task.Container(name)` from `lib/ecsclient/client.go`: the first
container whose non-nil name equals `name`, if any. -/
def Task.containerNamed (t : Task) (name : String) : Option Container :=
  t.containers.find? (fun c => c.name = some name)

/-- Method `Container.ResolvePort` from `lib/ecsclient/client.go`: the host port
of the first binding whose container port equals the requested port and
whose host port is non-nil; `0` when no binding matches. -/
def resolvePort (c : Container) (containerPort : Nat) : Nat :=
  match c.networkBindings.find?
      (fun b => decide (b.containerPort = some (containerPort : Int)) && b.hostPort.isSome) with
  | some b => u16 (b.hostPort.getD 0)
  | none => 0

/-- Method `Task.PublicIP` from `lib/ecsclient/client.go`: empty string when the
instance or its address is absent. -/
def Task.publicIP (t : Task) : String :=
  (t.ec2Instance.bind (fun i => i.publicIPAddress)).getD ""

/-- Method `Task.PrivateIP` from `lib/ecsclient/client.go`. -/
def Task.privateIP (t : Task) : String :=
  (t.ec2Instance.bind (fun i => i.privateIPAddress)).getD ""

/-- The inner loop of `taskhelpers.ContainerPorts` over one container's
network bindings, threading the `seenPorts` dedupe set and the output
list exactly as the source does: a port is appended only when not yet
seen, and is then added to the seen set. -/
def addBindings : List NetworkBinding → List Nat × List Nat → List Nat × List Nat
  | [], acc => acc
  | b :: rest, (seen, output) =>
    match b.containerPort with
    | none => addBindings rest (seen, output)
    | some cp =>
      let p := u16 cp
      if p ∈ seen then addBindings rest (seen, output)
      else addBindings rest (p :: seen, output ++ [p])

/-- The outer loop of `taskhelpers.ContainerPorts` over the task list:
skip tasks without the named container or whose container is not
RUNNING. -/
def cpLoop (name : String) : List Task → List Nat × List Nat → List Nat × List Nat
  | [], acc => acc
  | t :: rest, acc =>
    match t.containerNamed name with
    | none => cpLoop name rest acc
    | some c =>
      if c.lastStatus = some "RUNNING" then
        cpLoop name rest (addBindings c.networkBindings acc)
      else
        cpLoop name rest acc

/-- Function `taskhelpers.ContainerPorts(tasks, containerName)`: every container
port bound by the named RUNNING container across the tasks, deduplicated
via the `seenPorts` map. -/
def ContainerPorts (tasks : List Task) (containerName : String) : List Nat :=
  (cpLoop containerName tasks ([], [])).2

/-- Function `taskhelpers.FilterIPPort(tasks, containerName, containerPort, publicIP)`:
the "ip:port" strings for every task whose named container is RUNNING,
resolves the container port to a non-zero host port, and has a non-empty
host IP of the requested kind. -/
def FilterIPPort (tasks : List Task) (containerName : String)
    (containerPort : Nat) (publicIP : Bool) : List String :=
  match tasks with
  | [] => []
  | t :: rest =>
    let tailOut := FilterIPPort rest containerName containerPort publicIP
    match t.containerNamed containerName with
    | none => tailOut
    | some c =>
      if c.lastStatus = some "RUNNING" then
        let hostPort := resolvePort c containerPort
        if hostPort = 0 then tailOut
        else
          let taskIP := if publicIP then t.publicIP else t.privateIP
          if taskIP = "" then tailOut
          else (taskIP ++ ":" ++ toString hostPort) :: tailOut
      else tailOut

/-! ### Deduplication of `ContainerPorts` -/

/-- Invariant threaded through the two `ContainerPorts` loops: the output
has no duplicates and contains exactly the seen ports. -/
def CPInv (acc : List Nat × List Nat) : Prop :=
  acc.2.Nodup ∧ ∀ x, x ∈ acc.2 ↔ x ∈ acc.1

theorem addBindings_inv (bs : List NetworkBinding) (acc : List Nat × List Nat)
    (h : CPInv acc) : CPInv (addBindings bs acc) := by
  induction bs generalizing acc with
  | nil => simpa [addBindings] using h
  | cons b rest ih =>
    obtain ⟨seen, output⟩ := acc
    obtain ⟨hnd, hmem⟩ := h
    cases hb : b.containerPort with
    | none =>
      simp only [addBindings, hb]
      exact ih _ ⟨hnd, hmem⟩
    | some cp =>
      simp only [addBindings, hb]
      by_cases hp : u16 cp ∈ seen
      · simp only [hp, if_pos]
        exact ih _ ⟨hnd, hmem⟩
      · simp only [hp, if_neg, not_false_iff]
        refine ih _ ⟨?_, ?_⟩
        · rw [List.nodup_append]
          refine ⟨hnd, List.nodup_singleton _, ?_⟩
          intro x hx hx'
          rcases List.mem_singleton.mp hx' with rfl
          exact hp ((hmem _).mp hx)
        · intro x
          constructor
          · intro hx
            rcases List.mem_append.mp hx with hx | hx
            · exact List.mem_cons_of_mem _ ((hmem x).mp hx)
            · rcases List.mem_singleton.mp hx with rfl
              exact List.mem_cons_self _ _
          · intro hx
            rcases List.mem_cons.mp hx with rfl | hx
            · exact List.mem_append_right _ (List.mem_singleton_self _)
            · exact List.mem_append_left _ ((hmem x).mpr hx)

theorem cpLoop_inv (name : String) (tasks : List Task)
    (acc : List Nat × List Nat) (h : CPInv acc) :
    CPInv (cpLoop name tasks acc) := by
  induction tasks generalizing acc with
  | nil => simpa [cpLoop] using h
  | cons t rest ih =>
    simp only [cpLoop]
    cases t.containerNamed name with
    | none => exact ih _ h
    | some c =>
      by_cases hs : c.lastStatus = some "RUNNING"
      · simp only [hs, if_pos]
        exact ih _ (addBindings_inv _ _ h)
      · simp only [hs, if_neg, not_false_iff]
        exact ih _ h

/-- Claim C8: port extraction deduplicates — for every task list and
container name, each port value appears at most once in the list returned
by `ContainerPorts`, even when the same port occurs in several network
bindings or several tasks. -/
theorem containerPorts_nodup (tasks : List Task) (containerName : String) :
    (ContainerPorts tasks containerName).Nodup :=
  (cpLoop_inv containerName tasks ([], [])
    ⟨List.nodup_nil, by simp⟩).1

/-! ### The Proxy connection handler and Close (`lib/proxy/proxy.go`) -/

/-- Observable events of one connection handler / Close call.  Lock events
record acquisitions and releases of the Proxy's two locks (`p.l`, read
side, and `p.connsLock`); `dial` is the blocking `net.DialTimeout` call;
`append` records the push onto `p.activeConnections` (the argument is the
dial result, `none` on dial error exactly as in the source, which appends
`backendConn` before checking `err`); `copyDone` marks the completion of
the handler's inbound-to-backend `io.Copy`; `closeConn` is a `Close()`
call on a connection; `listenerClose` closes the listener. -/
inductive Ev where
  | rlock
  | runlock
  | connsLock
  | connsUnlock
  | dial (addr : String)
  | append (c : Option Nat)
  | copyDone
  | closeConn (c : Nat)
  | listenerClose
deriving DecidableEq

/-- The mutable state of a `Proxy` that the handler and `Close` touch:
the liveness flag, the hot-swappable backend list, and the tracked
outbound connections (entries are `Option` because the source appends the
dial result before inspecting the dial error, so a failed dial records a
nil connection). -/
structure ProxyState where
  active : Bool
  currentBackends : List String
  activeConnections : List (Option Nat)
deriving DecidableEq

/-- The per-connection goroutine spawned by `Proxy.serveLoop`
(proxy.go lines 62–86), as a function of the proxy state, the accepted
inbound connection, the random index drawn by `rand.Intn`, and the dial
outcome (`some backendConn` or `none` for a timeout/refusal).  It returns
the new proxy state and the handler's event trace.  Control flow follows
the source exactly:
  * `p.l.RLock()`; if the backend list is empty the goroutine returns —
    with no `RUnlock`, no close of the inbound connection and no dial;
  * otherwise a backend is chosen, `RUnlock`, then `connsLock.Lock()`;
    if `!p.active` the goroutine returns — with no `Unlock`, no dial;
  * otherwise it dials, appends the dial result to `activeConnections`,
    and on dial error unlocks and returns without closing the inbound
    connection;
  * on dial success it unlocks, relays (`io.Copy` both directions) and
    the deferred `conn.Close()` closes the inbound connection when the
    inbound-to-backend copy finishes; the backend connection is not
    closed and is not removed from `activeConnections`. -/
def serveConn (s : ProxyState) (inbound : Nat) (randIdx : Nat)
    (dialRes : Option Nat) : ProxyState × List Ev :=
  if s.currentBackends.length = 0 then
    (s, [Ev.rlock])
  else
    let chosenBackend :=
      s.currentBackends.getD (randIdx % s.currentBackends.length) ""
    if s.active = false then
      (s, [Ev.rlock, Ev.runlock, Ev.connsLock])
    else
      let s1 := { s with activeConnections := s.activeConnections ++ [dialRes] }
      match dialRes with
      | none =>
        (s1, [Ev.rlock, Ev.runlock, Ev.connsLock,
              Ev.dial chosenBackend, Ev.append none, Ev.connsUnlock])
      | some backendConn =>
        (s1, [Ev.rlock, Ev.runlock, Ev.connsLock,
              Ev.dial chosenBackend, Ev.append (some backendConn),
              Ev.connsUnlock, Ev.copyDone, Ev.closeConn inbound])

/-- The loop body of `Proxy.Close` over `p.activeConnections`
(proxy.go lines 101–103): `conn.Close()` on each entry in order.  A `none`
entry is a nil `net.Conn` interface value recorded by a failed dial;
calling `Close` on it panics, which we model as `Option.none`. -/
def closeConns : List (Option Nat) → Option (List Ev)
  | [] => some []
  | some c :: rest => (closeConns rest).map (fun evs => Ev.closeConn c :: evs)
  | none :: _ => none

/-- Method `Proxy.Close` (proxy.go lines 96–105): under `p.l.Lock()` set
`active = false`, close every tracked connection, close the listener.
The result is `none` when the loop panics on a nil tracked connection,
otherwise the final state and the trace of close events. -/
def closeProxy (s : ProxyState) : Option (ProxyState × List Ev) :=
  (closeConns s.activeConnections).map
    (fun evs => ({ s with active := false }, evs ++ [Ev.listenerClose]))

/-- Whether the handler's read lock on the backend list (`p.l`) is still
held after the trace: acquisitions minus releases, as a final flag. -/
def rwHeldAfter (evs : List Ev) : Bool :=
  evs.foldl
    (fun held e =>
      match e with
      | Ev.rlock => true
      | Ev.runlock => false
      | _ => held) false

/-- Whether `p.connsLock` is still held after the trace. -/
def connsHeldAfter (evs : List Ev) : Bool :=
  evs.foldl
    (fun held e =>
      match e with
      | Ev.connsLock => true
      | Ev.connsUnlock => false
      | _ => held) false

/-- Whether some event satisfying `isTarget` occurs in the trace while
`p.l` (read side) is held at that point. -/
def rwHeldAt (isTarget : Ev → Bool) (evs : List Ev) : Bool :=
  (evs.foldl
    (fun acc e =>
      let held := acc.1
      let hit := acc.2 || (held && isTarget e)
      match e with
      | Ev.rlock => (true, hit)
      | Ev.runlock => (false, hit)
      | _ => (held, hit)) (false, false)).2

/-- Whether some event satisfying `isTarget` occurs in the trace while
`p.connsLock` is held at that point. -/
def connsHeldAt (isTarget : Ev → Bool) (evs : List Ev) : Bool :=
  (evs.foldl
    (fun acc e =>
      let held := acc.1
      let hit := acc.2 || (held && isTarget e)
      match e with
      | Ev.connsLock => (true, hit)
      | Ev.connsUnlock => (false, hit)
      | _ => (held, hit)) (false, false)).2

/-- Recognises a dial event. -/
def isDial : Ev → Bool
  | Ev.dial _ => true
  | _ => false

/-- Recognises the relay-completion event. -/
def isCopy : Ev → Bool
  | Ev.copyDone => true
  | _ => false

/-- Recognises an append to the active-connection set. -/
def isAppend : Ev → Bool
  | Ev.append _ => true
  | _ => false

/-- Number of dial attempts in a trace. -/
def dialCount (evs : List Ev) : Nat := (evs.filter isDial).length

/-! ### Claims about the connection handler and Close -/

/-- Claim C1: the claim states that with an empty backend list at
selection time the inbound connection is closed immediately with no dial
and zero bytes.  On the code, the handler taking inbound connection 1 on
an active proxy with no backends performs no dial (as claimed) but
returns without ever closing the inbound connection, and moreover leaves
the backend-list read lock held. -/
theorem serveConn_emptyBackends_inbound_not_closed :
    dialCount (serveConn ⟨true, [], []⟩ 1 0 none).2 = 0 ∧
    Ev.closeConn 1 ∉ (serveConn ⟨true, [], []⟩ 1 0 none).2 ∧
    rwHeldAfter (serveConn ⟨true, [], []⟩ 1 0 none).2 = true := by
  decide

/-- Claim C2: the claim states that `Close()` never crashes.  On the
code, a handler whose dial fails appends the nil dial result to
`activeConnections` before checking the error, so a subsequent `Close()`
calls `Close` on a nil connection and panics (modelled as `none`). -/
theorem closeProxy_panics_after_failed_dial :
    closeProxy (serveConn ⟨true, ["10.0.0.1:8080"], []⟩ 1 0 none).1 = none := by
  decide

/-- Claim C3 counterexample: the claim states that once both relay
directions complete, both sockets are closed and the backend connection
is deregistered.  On the code, a completed relay (the `copyDone` event is
in the trace and the handler has returned) never closes the backend
connection 2 and leaves it registered in `activeConnections`. -/
theorem serveConn_backend_never_deregistered :
    Ev.copyDone ∈ (serveConn ⟨true, ["10.0.0.1:8080"], []⟩ 1 0 (some 2)).2 ∧
    Ev.closeConn 2 ∉ (serveConn ⟨true, ["10.0.0.1:8080"], []⟩ 1 0 (some 2)).2 ∧
    some 2 ∈ (serveConn ⟨true, ["10.0.0.1:8080"], []⟩ 1 0 (some 2)).1.activeConnections := by
  decide

/-- Claim C3 as amended: once the inbound-to-backend relay direction
completes, the deferred close shuts the inbound socket; the backend
socket is not closed by the relay and the backend connection stays in the
owning Proxy's active-connection set (it is only closed by `Close`). -/
theorem serveConn_relay_closes_inbound_only (s : ProxyState)
    (inbound b randIdx : Nat) (hact : s.active = true)
    (hne : s.currentBackends ≠ []) (hdistinct : b ≠ inbound) :
    Ev.closeConn inbound ∈ (serveConn s inbound randIdx (some b)).2 ∧
    Ev.closeConn b ∉ (serveConn s inbound randIdx (some b)).2 ∧
    some b ∈ (serveConn s inbound randIdx (some b)).1.activeConnections := by
  have hlen : ¬ s.currentBackends.length = 0 := by
    simpa [List.length_eq_zero] using hne
  simp [serveConn, hlen, hact, hdistinct]

/-- Claim C3 amended, witness: the relay on a concrete active proxy with
backend connection 2 and inbound connection 1. -/
theorem serveConn_relay_closes_inbound_only_witness :
    Ev.closeConn 1 ∈ (serveConn ⟨true, ["10.0.0.1:8080"], []⟩ 1 0 (some 2)).2 ∧
    Ev.closeConn 2 ∉ (serveConn ⟨true, ["10.0.0.1:8080"], []⟩ 1 0 (some 2)).2 ∧
    some 2 ∈ (serveConn ⟨true, ["10.0.0.1:8080"], []⟩ 1 0 (some 2)).1.activeConnections :=
  serveConn_relay_closes_inbound_only ⟨true, ["10.0.0.1:8080"], []⟩ 1 2 0
    rfl (by decide) (by decide)

/-- Claim C5: the claim states that when the dial fails the inbound
connection is closed immediately with no retry.  On the code, a failed
dial on an active proxy with one backend performs exactly one dial (no
retry, as claimed) but returns without closing inbound connection 1. -/
theorem serveConn_dialFailure_inbound_not_closed :
    dialCount (serveConn ⟨true, ["10.0.0.1:8080"], []⟩ 1 0 none).2 = 1 ∧
    Ev.closeConn 1 ∉ (serveConn ⟨true, ["10.0.0.1:8080"], []⟩ 1 0 none).2 := by
  decide

/-- Claim C6 counterexample: the claim states that dialing is performed
while holding neither Proxy lock.  On the code, the dial of a successful
handler on an active proxy occurs while `connsLock` is held. -/
theorem serveConn_dial_holds_connsLock :
    connsHeldAt isDial (serveConn ⟨true, ["10.0.0.1:8080"], []⟩ 1 0 (some 2)).2 = true := by
  decide

/-- Claim C6 as amended: the backend-list read lock is released before
any dial and is never held during dialing or relaying, and relaying
happens under neither lock; but the dial itself is performed while the
connection-set lock is held, and on the empty-backend path the handler
returns still holding the backend-list read lock. -/
theorem serveConn_lock_discipline (s : ProxyState) (inbound randIdx : Nat)
    (dialRes : Option Nat) :
    (s.currentBackends = [] →
      rwHeldAfter (serveConn s inbound randIdx dialRes).2 = true) ∧
    (s.currentBackends ≠ [] → s.active = true →
      rwHeldAt isDial (serveConn s inbound randIdx dialRes).2 = false ∧
      connsHeldAt isDial (serveConn s inbound randIdx dialRes).2 = true ∧
      rwHeldAt isCopy (serveConn s inbound randIdx dialRes).2 = false ∧
      connsHeldAt isCopy (serveConn s inbound randIdx dialRes).2 = false) := by
  constructor
  · intro hnil
    simp [serveConn, hnil, rwHeldAfter]
  · intro hne hact
    have hlen : ¬ s.currentBackends.length = 0 := by
      simpa [List.length_eq_zero] using hne
    cases dialRes with
    | none =>
      simp [serveConn, hlen, hact, rwHeldAt, connsHeldAt, isDial, isCopy]
    | some b =>
      simp [serveConn, hlen, hact, rwHeldAt, connsHeldAt, isDial, isCopy]

/-- Claim C6 amended, witness: the lock discipline at a concrete active
proxy with one backend and a successful dial, and at a concrete proxy
with no backends. -/
theorem serveConn_lock_discipline_witness :
    rwHeldAfter (serveConn ⟨true, [], []⟩ 3 0 none).2 = true ∧
    connsHeldAt isDial (serveConn ⟨true, ["10.0.0.1:8080"], []⟩ 1 0 (some 2)).2 = true := by
  refine ⟨(serveConn_lock_discipline ⟨true, [], []⟩ 3 0 none).1 rfl, ?_⟩
  exact ((serveConn_lock_discipline ⟨true, ["10.0.0.1:8080"], []⟩ 1 0
    (some 2)).2 (by decide) rfl).2.1

/-- Claim C10: after `Close()` has set the liveness flag to false, a
handler that has not yet dialed performs no dial and no append, leaves
the state unchanged, and (when it got past the backend check) its trace
ends at the liveness test with the connection-set lock held, so no new
backend connection is created or tracked on a closed Proxy. -/
theorem serveConn_inactive_no_dial (s : ProxyState) (inbound randIdx : Nat)
    (dialRes : Option Nat) (h : s.active = false) :
    dialCount (serveConn s inbound randIdx dialRes).2 = 0 ∧
    (∀ c, Ev.append c ∉ (serveConn s inbound randIdx dialRes).2) ∧
    (serveConn s inbound randIdx dialRes).1 = s ∧
    (s.currentBackends ≠ [] →
      (serveConn s inbound randIdx dialRes).2 =
        [Ev.rlock, Ev.runlock, Ev.connsLock] ∧
      connsHeldAfter (serveConn s inbound randIdx dialRes).2 = true) := by
  by_cases hnil : s.currentBackends.length = 0
  · refine ⟨by simp [serveConn, hnil, dialCount, isDial], ?_, ?_, ?_⟩
    · intro c
      simp [serveConn, hnil]
    · simp [serveConn, hnil]
    · intro hne
      exact absurd (List.length_eq_zero.mp hnil) hne
  · refine ⟨by simp [serveConn, hnil, h, dialCount, isDial], ?_, ?_, ?_⟩
    · intro c
      simp [serveConn, hnil, h]
    · simp [serveConn, hnil, h]
    · intro _
      simp [serveConn, hnil, h, connsHeldAfter]

/-- Claim C10, witness: a concrete closed proxy with one backend and a
pending handler. -/
theorem serveConn_inactive_no_dial_witness :
    dialCount (serveConn ⟨false, ["10.0.0.1:8080"], []⟩ 1 0 (some 2)).2 = 0 ∧
    (∀ c, Ev.append c ∉ (serveConn ⟨false, ["10.0.0.1:8080"], []⟩ 1 0 (some 2)).2) ∧
    (serveConn ⟨false, ["10.0.0.1:8080"], []⟩ 1 0 (some 2)).1 =
      (⟨false, ["10.0.0.1:8080"], []⟩ : ProxyState) ∧
    ((["10.0.0.1:8080"] : List String) ≠ [] →
      (serveConn ⟨false, ["10.0.0.1:8080"], []⟩ 1 0 (some 2)).2 =
        [Ev.rlock, Ev.runlock, Ev.connsLock] ∧
      connsHeldAfter (serveConn ⟨false, ["10.0.0.1:8080"], []⟩ 1 0 (some 2)).2 = true) :=
  serveConn_inactive_no_dial ⟨false, ["10.0.0.1:8080"], []⟩ 1 0 (some 2) rfl

/-! ### One reconciliation round of `proxyTasks` (`ecs-task-kite.go`) -/

/-- The reconciler's handle on one `proxy.Proxy`: an identity, whether
`Close` has been called on it, and its current backend list. -/
structure PProxy where
  pid : Nat
  closed : Bool
  backends : List String
deriving DecidableEq

/-- Lookup in the port-to-proxy map (first entry with the key). -/
def mlookup (port : Nat) : List (Nat × PProxy) → Option PProxy
  | [] => none
  | (k, v) :: rest => if k = port then some v else mlookup port rest

/-- In-place update of the entry with the given key, as a Go map
assignment on an existing key. -/
def mupdate (port : Nat) (p : PProxy) : List (Nat × PProxy) → List (Nat × PProxy)
  | [] => []
  | (k, v) :: rest =>
    if k = port then (k, p) :: rest else (k, v) :: mupdate port p rest

/-- The stale-port sweep of `proxyTasks` (ecs-task-kite.go lines 95–113):
every currently proxied port without a listener in `containerPorts` has
its proxy closed and is deleted from the map.  Returns the surviving map
and the closed stale proxies, keyed by their port. -/
def unproxyStale (containerPorts : List Nat) :
    List (Nat × PProxy) → List (Nat × PProxy) × List (Nat × PProxy)
  | [] => ([], [])
  | (port, p) :: rest =>
    let r := unproxyStale containerPorts rest
    if port ∈ containerPorts then ((port, p) :: r.1, r.2)
    else (r.1, (port, { p with closed := true }) :: r.2)

/-- The creation/update sweep of `proxyTasks` (ecs-task-kite.go lines
115–133): for each container port, skip it when `FilterIPPort` is empty;
otherwise update the existing proxy's backends, or create a new proxy
(unless binding the listener fails, modelled by the `bindFails` oracle)
and insert it. -/
def proxyNewPorts (tasks : List Task) (name : String) (public : Bool)
    (bindFails : Nat → Bool) :
    List Nat → List (Nat × PProxy) → List (Nat × PProxy)
  | [], proxies => proxies
  | port :: rest, proxies =>
    let ipPortPairs := FilterIPPort tasks name port public
    let proxies' :=
      if ipPortPairs = [] then proxies
      else
        match mlookup port proxies with
        | some p => mupdate port { p with backends := ipPortPairs } proxies
        | none =>
          if bindFails port then proxies
          else proxies ++ [(port, ⟨port, false, ipPortPairs⟩)]
    proxyNewPorts tasks name public bindFails rest proxies'

/-- One iteration of the `proxyTasks` select loop in `ecs-task-kite.go`
(lines 83–135) on a received task update: an empty task list is ignored;
an empty extracted port list is ignored (`continue` before the stale
sweep); otherwise stale ports are closed and removed and the remaining
ports are created/updated.  Returns the new map and the closed stale
proxies of this round. -/
def proxyTasksRound (tasks : List Task) (name : String) (public : Bool)
    (bindFails : Nat → Bool) (proxies : List (Nat × PProxy)) :
    List (Nat × PProxy) × List (Nat × PProxy) :=
  if tasks.length = 0 then (proxies, [])
  else
    let containerPorts := ContainerPorts tasks name
    if containerPorts.length = 0 then (proxies, [])
    else
      let r := unproxyStale containerPorts proxies
      (proxyNewPorts tasks name public bindFails containerPorts r.1, r.2)

/-! ### Lemmas on the reconciliation round -/

theorem mlookup_append_ne (port k : Nat) (x : PProxy)
    (m : List (Nat × PProxy)) (hk : k ≠ port) :
    mlookup port (m ++ [(k, x)]) = mlookup port m := by
  induction m with
  | nil => simp [mlookup, hk]
  | cons hd tl ih =>
    obtain ⟨k', v'⟩ := hd
    by_cases h : k' = port
    · simp [mlookup, h]
    · simp [mlookup, h, ih]

theorem mlookup_mupdate_ne (port k : Nat) (q : PProxy)
    (m : List (Nat × PProxy)) (hk : k ≠ port) :
    mlookup port (mupdate k q m) = mlookup port m := by
  induction m with
  | nil => simp [mupdate]
  | cons hd tl ih =>
    obtain ⟨k', v'⟩ := hd
    by_cases h : k' = k
    · subst h
      simp [mupdate, mlookup, hk]
    · by_cases h' : k' = port
      · simp [mupdate, mlookup, h, h', Ne.symm hk]
      · simp [mupdate, mlookup, h, h', ih]

theorem unproxyStale_lookup_stale (cp : List Nat) (port : Nat)
    (m : List (Nat × PProxy)) (h : port ∉ cp) :
    mlookup port (unproxyStale cp m).1 = none := by
  induction m with
  | nil => simp [unproxyStale, mlookup]
  | cons hd tl ih =>
    obtain ⟨k, v⟩ := hd
    by_cases hk : k ∈ cp
    · have hkp : k ≠ port := fun he => h (he ▸ hk)
      simp [unproxyStale, hk, mlookup, hkp, ih]
    · simp [unproxyStale, hk, ih]

theorem unproxyStale_closed_mem (cp : List Nat) (port : Nat) (p : PProxy)
    (m : List (Nat × PProxy)) (hmem : (port, p) ∈ m) (h : port ∉ cp) :
    (port, { p with closed := true }) ∈ (unproxyStale cp m).2 := by
  induction m with
  | nil => cases hmem
  | cons hd tl ih =>
    obtain ⟨k, v⟩ := hd
    rcases List.mem_cons.mp hmem with he | htl
    · obtain ⟨rfl, rfl⟩ := Prod.mk.injEq .. ▸ he
      injection he with h1 h2
      simp [unproxyStale, h]
    · by_cases hk : k ∈ cp
      · simp only [unproxyStale, hk, if_pos]
        exact ih htl
      · simp only [unproxyStale, hk, if_neg, not_false_iff]
        exact List.mem_cons_of_mem _ (ih htl)

theorem unproxyStale_lookup_kept (cp : List Nat) (port : Nat)
    (m : List (Nat × PProxy)) (h : port ∈ cp) :
    mlookup port (unproxyStale cp m).1 = mlookup port m := by
  induction m with
  | nil => simp [unproxyStale]
  | cons hd tl ih =>
    obtain ⟨k, v⟩ := hd
    by_cases hk : k ∈ cp
    · by_cases hkp : k = port
      · simp [unproxyStale, hk, mlookup, hkp, h]
      · simp [unproxyStale, hk, mlookup, hkp, ih]
    · have hkp : k ≠ port := fun he => hk (he ▸ h)
      simp [unproxyStale, hk, mlookup, hkp, ih]

theorem unproxyStale_closed_keys (cp : List Nat) (port : Nat) (q : PProxy)
    (m : List (Nat × PProxy))
    (hmem : (port, q) ∈ (unproxyStale cp m).2) : port ∉ cp := by
  induction m with
  | nil => cases hmem
  | cons hd tl ih =>
    obtain ⟨k, v⟩ := hd
    by_cases hk : k ∈ cp
    · simp only [unproxyStale, hk, if_pos] at hmem
      exact ih hmem
    · simp only [unproxyStale, hk, if_neg, not_false_iff] at hmem
      rcases List.mem_cons.mp hmem with he | htl
      · injection he with h1 h2
        exact h1 ▸ hk
      · exact ih htl

theorem proxyNewPorts_lookup_skipped (tasks : List Task) (name : String)
    (public : Bool) (bindFails : Nat → Bool) (port : Nat) (ports : List Nat)
    (m : List (Nat × PProxy))
    (hskip : ∀ q ∈ ports, q = port → FilterIPPort tasks name q public = []) :
    mlookup port (proxyNewPorts tasks name public bindFails ports m) =
      mlookup port m := by
  induction ports generalizing m with
  | nil => simp [proxyNewPorts]
  | cons hd tl ih =>
    by_cases hhd : hd = port
    · have hpairs : FilterIPPort tasks name hd public = [] :=
        hskip hd (List.mem_cons_self _ _) hhd
      simp only [proxyNewPorts, hpairs, if_pos]
      exact ih _ (fun q hq he => hskip q (List.mem_cons_of_mem _ hq) he)
    · have htail : ∀ q ∈ tl, q = port → FilterIPPort tasks name q public = [] :=
        fun q hq he => hskip q (List.mem_cons_of_mem _ hq) he
      simp only [proxyNewPorts]
      by_cases hpairs : FilterIPPort tasks name hd public = []
      · simp only [hpairs, if_pos]
        exact ih _ htail
      · simp only [hpairs, if_neg, not_false_iff]
        cases hl : mlookup hd m with
        | some p =>
          rw [ih _ htail, mlookup_mupdate_ne port hd _ _ hhd]
        | none =>
          by_cases hbf : bindFails hd = true
          · rw [if_pos hbf]
            exact ih _ htail
          · rw [if_neg hbf, ih _ htail, mlookup_append_ne port hd _ _ hhd]

/-! ### Claims about the reconciliation round -/

/-- Claim C4 counterexample: the claim states that stale ports are closed
and removed in every consumed round, including rounds whose port set is
empty.  On the code, a round whose task list is nonempty but whose
extracted port list is empty (here: the named container exists but is not
RUNNING) is skipped entirely: the proxy on port 80, absent from the empty
port set, stays open and in the map and nothing is closed. -/
theorem proxyTasksRound_emptyPortSet_keeps_stale :
    proxyTasksRound [⟨[⟨some "web", some "STOPPED", []⟩], none⟩] "web" false
        (fun _ => false) [(80, ⟨80, false, ["10.0.0.1:8080"]⟩)] =
      ([(80, ⟨80, false, ["10.0.0.1:8080"]⟩)], []) ∧
    (80 : Nat) ∉ ContainerPorts [⟨[⟨some "web", some "STOPPED", []⟩], none⟩] "web" ∧
    ([⟨[⟨some "web", some "STOPPED", []⟩], none⟩] : List Task) ≠ [] := by
  decide

/-- Claim C4 as amended: in every reconciliation round whose task list is
nonempty and whose extracted port list is nonempty, every port that
currently has a Proxy but is absent from the round's port set has its
Proxy closed and removed from the proxy map during that round (rounds
with an empty task list or an empty extracted port list are ignored and
leave the map unchanged). -/
theorem proxyTasksRound_closes_stale (tasks : List Task) (name : String)
    (public : Bool) (bindFails : Nat → Bool) (proxies : List (Nat × PProxy))
    (port : Nat) (p : PProxy) (htasks : tasks ≠ [])
    (hports : ContainerPorts tasks name ≠ [])
    (hmem : (port, p) ∈ proxies)
    (hstale : port ∉ ContainerPorts tasks name) :
    mlookup port (proxyTasksRound tasks name public bindFails proxies).1 = none ∧
    (port, { p with closed := true }) ∈
      (proxyTasksRound tasks name public bindFails proxies).2 := by
  have hlt : ¬ tasks.length = 0 := by
    simpa [List.length_eq_zero] using htasks
  have hlp : ¬ (ContainerPorts tasks name).length = 0 := by
    simpa [List.length_eq_zero] using hports
  constructor
  · simp only [proxyTasksRound, hlt, hlp, if_neg, not_false_iff]
    rw [proxyNewPorts_lookup_skipped tasks name public bindFails port _ _
      (fun q hq he => absurd (he ▸ hq) hstale)]
    exact unproxyStale_lookup_stale _ _ _ hstale
  · simp only [proxyTasksRound, hlt, hlp, if_neg, not_false_iff]
    exact unproxyStale_closed_mem _ _ _ _ hmem hstale

/-- Claim C4 amended, witness: a concrete round with one RUNNING
container on port 8080 closes and removes the stale proxy on port 80. -/
theorem proxyTasksRound_closes_stale_witness :
    mlookup 80 (proxyTasksRound
      [⟨[⟨some "web", some "RUNNING", [⟨some 8080, some 8080⟩]⟩],
        some ⟨none, some "10.0.0.1"⟩⟩] "web" false (fun _ => false)
      [(80, ⟨80, false, ["10.0.0.9:80"]⟩)]).1 = none ∧
    ((80 : Nat), (⟨80, true, ["10.0.0.9:80"]⟩ : PProxy)) ∈
      (proxyTasksRound
        [⟨[⟨some "web", some "RUNNING", [⟨some 8080, some 8080⟩]⟩],
          some ⟨none, some "10.0.0.1"⟩⟩] "web" false (fun _ => false)
        [(80, ⟨80, false, ["10.0.0.9:80"]⟩)]).2 :=
  proxyTasksRound_closes_stale
    [⟨[⟨some "web", some "RUNNING", [⟨some 8080, some 8080⟩]⟩],
      some ⟨none, some "10.0.0.1"⟩⟩] "web" false (fun _ => false)
    [(80, ⟨80, false, ["10.0.0.9:80"]⟩)] 80 ⟨80, false, ["10.0.0.9:80"]⟩
    (by decide) (by decide) (by decide) (by decide)

/-- Claim C7: a port present in the round's port set whose extracted
backend address list is empty is skipped: no Proxy is created for it, no
existing Proxy on it is closed, and the proxy map's entry for it (present
or absent) is exactly what it was before the round. -/
theorem proxyTasksRound_emptyBackends_keeps_proxy (tasks : List Task)
    (name : String) (public : Bool) (bindFails : Nat → Bool)
    (proxies : List (Nat × PProxy)) (port : Nat)
    (hin : port ∈ ContainerPorts tasks name)
    (hempty : FilterIPPort tasks name port public = []) :
    mlookup port (proxyTasksRound tasks name public bindFails proxies).1 =
      mlookup port proxies ∧
    ∀ q, (port, q) ∉ (proxyTasksRound tasks name public bindFails proxies).2 := by
  have htasks : ¬ tasks.length = 0 := by
    intro h
    rw [List.length_eq_zero.mp h] at hin
    simp [ContainerPorts, cpLoop] at hin
  have hlp : ¬ (ContainerPorts tasks name).length = 0 := by
    intro h
    rw [List.length_eq_zero.mp h] at hin
    cases hin
  constructor
  · simp only [proxyTasksRound, htasks, hlp, if_neg, not_false_iff]
    rw [proxyNewPorts_lookup_skipped tasks name public bindFails port _ _
      (fun q _ he => he ▸ hempty)]
    exact unproxyStale_lookup_kept _ _ _ hin
  · intro q
    simp only [proxyTasksRound, htasks, hlp, if_neg, not_false_iff]
    intro hq
    exact unproxyStale_closed_keys _ _ _ _ hq hin

/-- Claim C7, witness: a concrete round where port 8080 is bound but its
host port resolves to 0, so its backend list is empty; the existing proxy
on 8080 is kept unchanged and nothing on 8080 is closed. -/
theorem proxyTasksRound_emptyBackends_keeps_proxy_witness :
    mlookup 8080 (proxyTasksRound
      [⟨[⟨some "web", some "RUNNING", [⟨some 8080, some 0⟩]⟩],
        some ⟨none, some "10.0.0.1"⟩⟩] "web" false (fun _ => false)
      [(8080, ⟨1, false, ["10.0.0.9:80"]⟩)]).1 =
      mlookup 8080 [(8080, ⟨1, false, ["10.0.0.9:80"]⟩)] ∧
    ∀ q, ((8080 : Nat), q) ∉
      (proxyTasksRound
        [⟨[⟨some "web", some "RUNNING", [⟨some 8080, some 0⟩]⟩],
          some ⟨none, some "10.0.0.1"⟩⟩] "web" false (fun _ => false)
        [(8080, ⟨1, false, ["10.0.0.9:80"]⟩)]).2 :=
  proxyTasksRound_emptyBackends_keeps_proxy
    [⟨[⟨some "web", some "RUNNING", [⟨some 8080, some 0⟩]⟩],
      some ⟨none, some "10.0.0.1"⟩⟩] "web" false (fun _ => false)
    [(8080, ⟨1, false, ["10.0.0.9:80"]⟩)] 8080 (by decide) (by decide)

/-! ### Startup flag validation (`_main` in `ecs-task-kite.go`) -/

/-- The command-line values `_main` validates. -/
structure Flags where
  name : String
  family : String
  service : String
deriving DecidableEq

/-- What `_main` does before constructing the client. -/
inductive StartupOutcome where
  | usageExit (code : Nat)
  | proceed
deriving DecidableEq

/-- The startup validation of `_main` (ecs-task-kite.go lines 48–56):
print usage and return 1 when `-name` is empty, or when both `-family`
and `-service` are empty; otherwise proceed to `proxyTasks`.  (Both
failing branches call `flag.PrintDefaults()` before returning 1.) -/
def mainStartup (f : Flags) : StartupOutcome :=
  if f.name = "" then StartupOutcome.usageExit 1
  else if f.family = "" ∧ f.service = "" then StartupOutcome.usageExit 1
  else StartupOutcome.proceed

/-- Claim C9 counterexample: the claim states that providing both
`-family` and `-service` does not proceed past startup.  On the code,
startup with a name and both a family and a service proceeds. -/
theorem mainStartup_both_proceeds :
    mainStartup ⟨"web", "myfamily", "myservice"⟩ = StartupOutcome.proceed := by
  decide

/-- Claim C9 as amended: the process prints usage and exits with status 1
unless `-name` is provided and at least one of `-family` and `-service`
is provided; providing neither of `-family` and `-service` does not
proceed past startup, but providing both does proceed. -/
theorem mainStartup_flag_validation (f : Flags) :
    (mainStartup f = StartupOutcome.proceed ↔
      f.name ≠ "" ∧ (f.family ≠ "" ∨ f.service ≠ "")) ∧
    (mainStartup f ≠ StartupOutcome.proceed →
      mainStartup f = StartupOutcome.usageExit 1) := by
  unfold mainStartup
  by_cases h1 : f.name = "" <;> by_cases h2 : f.family = "" <;>
    by_cases h3 : f.service = "" <;> simp [h1, h2, h3]

/-- Claim C9 amended, witness: the validation outcome at a concrete flag
assignment with a name and only a family. -/
theorem mainStartup_flag_validation_witness :
    (mainStartup ⟨"web", "myfamily", ""⟩ = StartupOutcome.proceed ↔
      ("web" : String) ≠ "" ∧
        (("myfamily" : String) ≠ "" ∨ ("" : String) ≠ "")) ∧
    (mainStartup ⟨"web", "myfamily", ""⟩ ≠ StartupOutcome.proceed →
      mainStartup ⟨"web", "myfamily", ""⟩ = StartupOutcome.usageExit 1) :=
  mainStartup_flag_validation ⟨"web", "myfamily", ""⟩

end TaskKite
